import Mathlib

/-!
Shallow embedding of the hearddat server core (pairing protocol, audio
router, device hub) and proofs of its specified properties.

Conventions of the embedding:
* Python `datetime` values appear in two roles.  For the seed arithmetic in
  `compute_pairing_seed` only the calendar fields matter, so a timestamp is a
  `DateTime` structure of six natural-number fields.  For the ordering
  comparisons (`expires_at`, lockout) Python datetimes form a linear clock, so
  instants on that clock are modelled as natural numbers counting seconds
  (`timedelta(minutes=10)` is `600`).
* Python dicts are association lists; assignment replaces the binding for the
  key, `pop` removes it.  Only lookup behaviour is observable in the claims.
* Exceptions are `Except PairError`; each distinct `ValueError` raised in
  `pairing.py` is one constructor.
* `asyncio.Queue(maxsize=32)` sinks are lists of payloads, oldest first,
  tagged with a numeric identity standing for Python object identity.
* `str.strip()` is modelled by `strip` below, dropping leading and trailing
  whitespace characters from the character list of the string.
-/

namespace HeardDat

/-! ### Association lists standing for Python dicts -/

/-- Dict lookup: value bound to `key`, if any. -/
def dlookup {α : Type} : List (String × α) → String → Option α
  | [], _ => none
  | (k, v) :: rest, key => if k = key then some v else dlookup rest key

/-- Dict assignment `l[k] = v`: any old binding for `k` is replaced. -/
def dictSet {α : Type} (l : List (String × α)) (k : String) (v : α) :
    List (String × α) :=
  l.filter (fun p => p.1 != k) ++ [(k, v)]

/-- Dict `pop(k, None)`: drop the binding for `k` if present. -/
def dictPop {α : Type} (l : List (String × α)) (k : String) : List (String × α) :=
  l.filter (fun p => p.1 != k)

/-! ### Timestamps -/

/-- Calendar fields of a timezone-aware UTC `datetime`. -/
structure DateTime where
  year : Nat
  month : Nat
  day : Nat
  hour : Nat
  minute : Nat
  second : Nat
deriving DecidableEq, Repr

/-- Field bounds under which the ISO rendering of a `DateTime` is faithful
(every real `datetime` satisfies much tighter bounds). -/
def validDT (dt : DateTime) : Prop :=
  dt.year < 10000 ∧ dt.month < 100 ∧ dt.day < 100 ∧ dt.hour < 100 ∧
    dt.minute < 100 ∧ dt.second < 100

/-- Python `str.strip()`: remove leading and trailing whitespace. -/
def strip (s : String) : String :=
  ⟨((s.data.dropWhile Char.isWhitespace).reverse.dropWhile Char.isWhitespace).reverse⟩

/-! ### Seed computation (src/server/pairing.py, `compute_pairing_seed`) -/

/-- The pairing-domain failure kinds (`pairing.py` raises `ValueError` with a
distinct message for each). -/
inductive PairError where
  | pairingLocked
  | invalidToken
  | tokenExpired
  | invalidPin
  | invalidDelta
deriving DecidableEq, Repr

/-- Embedding of `compute_pairing_seed` (src/server/pairing.py, lines 34-76):
adjust the time components by the RGB deltas, multiply, and divide by the sum
of the absolute deltas with a round-half-away-from-zero correction applied to
the truncating quotient. -/
def compute_pairing_seed (issued_at : DateTime) (r g b : Int) : Except PairError Int :=
  let h_adj : Int := (issued_at.hour : Int) + g
  let m_adj : Int := (issued_at.minute : Int) + b
  let s_adj : Int := (issued_at.second : Int) + r
  let t : Int := (h_adj * m_adj) * s_adj
  let d : Nat := r.natAbs + g.natAbs + b.natAbs
  if d = 0 then
    .error .invalidDelta
  else
    let yy := issued_at.year % 100
    let base := issued_at.month * 100 + (yy + issued_at.day)
    let pack := issued_at.month * 1000 + base
    let y : Int := (issued_at.year : Int) * (pack : Int)
    let numer : Int := t * y
    let sign : Int := if numer < 0 then -1 else 1
    let q : Nat := numer.natAbs / d
    let rem : Nat := numer.natAbs % d
    let q' : Nat := if d ≤ 2 * rem then q + 1 else q
    .ok (sign * (q' : Int))

/-- Mathematical round-half-away-from-zero of the rational `numer / d`,
written without a quotient/remainder correction: for `a = |numer|` the
nearest natural with ties rounded up is `(2*a + d) / (2*d)`, and the sign of
`numer` is reapplied. -/
def roundHalfAwayFromZero (numer : Int) (d : Nat) : Int :=
  let mag : Nat := (2 * numer.natAbs + d) / (2 * d)
  if numer < 0 then -(mag : Int) else (mag : Int)

/-- The numerator `t * y` computed by `compute_pairing_seed` before dividing. -/
def seedNumer (issued_at : DateTime) (r g b : Int) : Int :=
  (((issued_at.hour : Int) + g) * ((issued_at.minute : Int) + b)
      * ((issued_at.second : Int) + r))
    * ((issued_at.year : Int)
        * ((issued_at.month * 1000
            + (issued_at.month * 100 + (issued_at.year % 100 + issued_at.day)) : Nat) : Int))

/-- The divisor `|r| + |g| + |b|`. -/
def seedDenom (r g b : Int) : Nat := r.natAbs + g.natAbs + b.natAbs

/-! ### PairingRegistry (src/server/pairing.py) -/

/-- A stored token record, the value of `payload["tokens"][token]`.  The
`issued_at` calendar fields feed the seed computation; `expires_at` is an
instant on the comparison clock. -/
structure TokenRecord where
  issued_at : DateTime
  expires_at : Nat
  pin : String
deriving DecidableEq, Repr

/-- A stored device record, the value of `payload["devices"][device_id]`.
The seed is stored in decimal-string form (`str(seed)`). -/
structure DeviceEntry where
  device_id : String
  seed : String
  paired_at : Nat
  last_seen_ip : Option String
deriving DecidableEq, Repr

/-- The persisted `"pairing"` document of the credential store: the `tokens`
and `devices` sub-mappings. -/
structure PairingDoc where
  tokens : List (String × TokenRecord)
  devices : List (String × DeviceEntry)
deriving DecidableEq, Repr

/-- A `PairingRegistry`: the persisted document plus the in-memory
`_lockout_until` instant. -/
structure RegistryState where
  store : PairingDoc
  lockout_until : Option Nat
deriving DecidableEq, Repr

/-- `self._lockout_until and now < self._lockout_until` (a datetime is always
truthy, so only `None` falls through). -/
def lockedOut : Option Nat → Nat → Bool
  | some t, now => decide (now < t)
  | none, _ => false

/-- Embedding of `PairingRegistry.confirm_device` (src/server/pairing.py,
lines 129-171).  Checks in source order: lockout, token presence, expiry,
trimmed-PIN equality (mismatch arms a 10-minute = 600-second lockout), then
the seed computation; on success the device record is overwritten, the token
is popped and the document saved.  The defensive `issued_at` presence check of
line 148 is unreachable here because a `TokenRecord` always carries its
`issued_at`; similarly line 151's truthiness test on `expires_at`. -/
def confirm_device (st : RegistryState) (now : Nat) (device_id token pin : String)
    (r g b : Int) (ip : Option String) : Except PairError Int × RegistryState :=
  if lockedOut st.lockout_until now then
    (.error .pairingLocked, st)
  else
    match dlookup st.store.tokens token with
    | none => (.error .invalidToken, st)
    | some trec =>
      if trec.expires_at ≤ now then
        (.error .tokenExpired, st)
      else if strip pin ≠ strip trec.pin then
        (.error .invalidPin, { st with lockout_until := some (now + 600) })
      else
        match compute_pairing_seed trec.issued_at r g b with
        | .error e => (.error e, st)
        | .ok seed =>
          (.ok seed,
            { st with
              store :=
                { tokens := dictPop st.store.tokens token
                  devices := dictSet st.store.devices device_id
                    ⟨device_id, toString seed, now, ip⟩ } })

/-- Embedding of `PairingRegistry.validate_device` (src/server/pairing.py,
lines 194-197): true iff a record exists for `device_id` and its stored seed
string equals the credential exactly. -/
def validate_device (st : RegistryState) (device_id credential : String) : Bool :=
  match dlookup st.store.devices device_id with
  | some drec => drec.seed == credential
  | none => false

/-! ### QR payload (src/server/pairing.py, `build_qr_payload`) -/

def PAIRING_VERSION : Nat := 1

/-- The `PairingToken` dataclass returned by `issue_token`. -/
structure PairingToken where
  token : String
  issued_at : DateTime
  expires_at : DateTime
  pin : String
deriving DecidableEq, Repr

/-- The decimal digit character for `n % 10`. -/
def digitChar (n : Nat) : Char := Char.ofNat (48 + n % 10)

/-- `datetime.isoformat()` of a UTC datetime:
`YYYY-MM-DDTHH:MM:SS+00:00`, 25 characters. -/
def isoformat (dt : DateTime) : String :=
  ⟨[digitChar (dt.year / 1000), digitChar (dt.year / 100),
    digitChar (dt.year / 10), digitChar dt.year, '-',
    digitChar (dt.month / 10), digitChar dt.month, '-',
    digitChar (dt.day / 10), digitChar dt.day, 'T',
    digitChar (dt.hour / 10), digitChar dt.hour, ':',
    digitChar (dt.minute / 10), digitChar dt.minute, ':',
    digitChar (dt.second / 10), digitChar dt.second,
    '+', '0', '0', ':', '0', '0']⟩

/-- Embedding of `build_qr_payload` (src/server/pairing.py, lines 200-214):
the exact six fields of the QR dictionary, in source order. -/
def build_qr_payload (host : String) (http_port : Nat) (t : PairingToken) :
    List (String × String) :=
  [("v", toString PAIRING_VERSION),
   ("type", "hearddat_pairing"),
   ("server", "http://" ++ host ++ ":" ++ toString http_port),
   ("token", t.token),
   ("issued_at", isoformat t.issued_at),
   ("expires_at", isoformat t.expires_at)]

/-- Numeric value of a decimal digit character. -/
def digitVal (c : Char) : Nat := c.toNat - 48

/-- Parse a UTC ISO-8601 timestamp of the exact shape `isoformat` emits. -/
def parseIso (s : String) : Option DateTime :=
  match s.data with
  | [y3, y2, y1, y0, '-', mo1, mo0, '-', d1, d0, 'T',
     h1, h0, ':', mi1, mi0, ':', s1, s0, '+', '0', '0', ':', '0', '0'] =>
    some ⟨digitVal y3 * 1000 + digitVal y2 * 100 + digitVal y1 * 10 + digitVal y0,
          digitVal mo1 * 10 + digitVal mo0,
          digitVal d1 * 10 + digitVal d0,
          digitVal h1 * 10 + digitVal h0,
          digitVal mi1 * 10 + digitVal mi0,
          digitVal s1 * 10 + digitVal s0⟩
  | _ => none

/-! ### AudioRouter (src/server/audio.py) -/

/-- The `AudioRouter` state: `_sources` mapping a channel name to its set of
consumer sinks.  A sink is a bounded queue: an identity (standing for Python
object identity) and the queued payloads, oldest first.  `nextSinkId` models
allocation of fresh queue objects. -/
structure RouterState (β : Type) where
  sources : List (String × List (Nat × List β))
  nextSinkId : Nat

/-- Embedding of `AudioRouter.register` (src/server/audio.py, lines 59-65):
create a fresh empty bounded queue and add it to the channel's consumer set,
creating the channel lazily.  Returns the new sink's identity. -/
def AudioRouter.register {β : Type} (st : RouterState β) (channel : String) :
    Nat × RouterState β :=
  let sinks := (dlookup st.sources channel).getD []
  (st.nextSinkId,
   { sources := dictSet st.sources channel (sinks ++ [(st.nextSinkId, ([] : List β))])
     nextSinkId := st.nextSinkId + 1 })

/-- Embedding of `AudioRouter.unregister` (src/server/audio.py, lines 67-74):
discard the sink from the channel's consumer set; if the set becomes empty
(or the channel was absent), pop the channel entry. -/
def AudioRouter.unregister {β : Type} (st : RouterState β) (channel : String)
    (sid : Nat) : RouterState β :=
  let consumers := ((dlookup st.sources channel).getD []).filter (fun s => s.1 != sid)
  if consumers.isEmpty then
    { st with sources := dictPop st.sources channel }
  else
    { st with sources := dictSet st.sources channel consumers }

/-- One sink's delivery step in `broadcast`: if the queue is full
(`qsize >= maxsize = 32`), `get_nowait` discards the single oldest payload,
then the new payload is enqueued at the back. -/
def sinkPut {β : Type} (payload : β) (q : List β) : List β :=
  if 32 ≤ q.length then q.tail ++ [payload] else q ++ [payload]

/-- Embedding of `AudioRouter.broadcast` (src/server/audio.py, lines 76-87):
snapshot the channel's consumers and deliver the payload to each sink via
`sinkPut`.  A channel with no entry receives nothing. -/
def AudioRouter.broadcast {β : Type} (st : RouterState β) (channel : String)
    (payload : β) : RouterState β :=
  match dlookup st.sources channel with
  | none => st
  | some sinks =>
    { st with
      sources := dictSet st.sources channel
        (sinks.map (fun s => (s.1, sinkPut payload s.2))) }

/-- The no-dangling-empty-channels invariant: every channel entry of the
router holds a nonempty consumer set. -/
def noEmptyChannels {β : Type} (st : RouterState β) : Prop :=
  ∀ p ∈ st.sources, p.2 ≠ []

/-! ### DeviceHub notification loops (src/server/devices.py)

The snapshot of registered connections is a list of device ids; the transport
outcome of `websocket.send_json` for each device is abstracted as a boolean
function `sendOk` (`true`: the await completes, `false`: it raises).  Each
loop returns the list of devices to which a send was attempted, in order,
paired with `some d` when an exception escaped to the caller while sending to
`d` (aborting the loop), or `none` when the loop ran to completion. -/

/-- Embedding of `DeviceHub.notify_all` (src/server/devices.py, lines 38-42):
`await device.websocket.send_json(payload)` in a bare loop — a raising send
aborts the loop and the exception propagates to the caller. -/
def notify_all (devices : List String) (sendOk : String → Bool) :
    List String × Option String :=
  match devices with
  | [] => ([], none)
  | d :: rest =>
    if sendOk d then
      let next := notify_all rest sendOk
      (d :: next.1, next.2)
    else
      ([d], some d)

/-- Embedding of `DeviceHub.notify_all_threadsafe` (src/server/devices.py,
lines 50-59): each send is handed to `asyncio.run_coroutine_threadsafe`,
whose returned future — where any send exception is captured — is discarded,
so the loop always visits every device and nothing propagates. -/
def notify_all_threadsafe (devices : List String) (sendOk : String → Bool) :
    List String × Option String :=
  match devices with
  | [] => ([], none)
  | d :: rest =>
    let _fut := sendOk d
    let next := notify_all_threadsafe rest sendOk
    (d :: next.1, next.2)

/-! ## Helper lemmas -/

theorem dlookup_cons {α : Type} (k : String) (v : α) (rest : List (String × α))
    (key : String) :
    dlookup ((k, v) :: rest) key = if k = key then some v else dlookup rest key := rfl

theorem filter_ne_cons {α : Type} (k' : String) (v' : α) (rest : List (String × α))
    (k : String) :
    ((k', v') :: rest).filter (fun p => p.1 != k) =
      if k' = k then rest.filter (fun p => p.1 != k)
      else (k', v') :: rest.filter (fun p => p.1 != k) := by
  by_cases h : k' = k <;> simp [List.filter_cons, h]

theorem dlookup_filter_ne_self {α : Type} (l : List (String × α)) (k : String) :
    dlookup (l.filter (fun p => p.1 != k)) k = none := by
  induction l with
  | nil => rfl
  | cons a rest ih =>
    obtain ⟨k', v'⟩ := a
    rw [filter_ne_cons]
    by_cases h : k' = k
    · rw [if_pos h]; exact ih
    · rw [if_neg h, dlookup_cons, if_neg h]; exact ih

theorem dlookup_filter_ne_other {α : Type} (l : List (String × α)) {k key : String}
    (h : key ≠ k) :
    dlookup (l.filter (fun p => p.1 != k)) key = dlookup l key := by
  induction l with
  | nil => rfl
  | cons a rest ih =>
    obtain ⟨k', v'⟩ := a
    rw [filter_ne_cons]
    by_cases hk : k' = k
    · rw [if_pos hk, dlookup_cons, if_neg (hk ▸ fun hc => h hc.symm)]
      exact ih
    · rw [if_neg hk, dlookup_cons, dlookup_cons]
      by_cases hkey : k' = key
      · rw [if_pos hkey, if_pos hkey]
      · rw [if_neg hkey, if_neg hkey]; exact ih

theorem dlookup_append {α : Type} (l₁ l₂ : List (String × α)) (key : String) :
    dlookup (l₁ ++ l₂) key =
      match dlookup l₁ key with
      | some v => some v
      | none => dlookup l₂ key := by
  induction l₁ with
  | nil => rfl
  | cons a rest ih =>
    obtain ⟨k', v'⟩ := a
    rw [List.cons_append, dlookup_cons, dlookup_cons]
    by_cases hk : k' = key
    · rw [if_pos hk, if_pos hk]
    · rw [if_neg hk, if_neg hk]; exact ih

theorem dlookup_dictSet_self {α : Type} (l : List (String × α)) (k : String) (v : α) :
    dlookup (dictSet l k v) k = some v := by
  unfold dictSet
  rw [dlookup_append, dlookup_filter_ne_self]
  simp [dlookup_cons]

theorem dlookup_dictSet_other {α : Type} (l : List (String × α)) {k key : String}
    (v : α) (h : key ≠ k) :
    dlookup (dictSet l k v) key = dlookup l key := by
  unfold dictSet
  rw [dlookup_append, dlookup_filter_ne_other l h]
  cases hfind : dlookup l key with
  | some v' => rfl
  | none =>
    show dlookup [(k, v)] key = none
    rw [dlookup_cons, if_neg (fun hc : k = key => h hc.symm)]
    rfl

theorem dlookup_dictPop_self {α : Type} (l : List (String × α)) (k : String) :
    dlookup (dictPop l k) k = none := dlookup_filter_ne_self l k

theorem dlookup_dictPop_other {α : Type} (l : List (String × α)) {k key : String}
    (h : key ≠ k) :
    dlookup (dictPop l k) key = dlookup l key := dlookup_filter_ne_other l h

theorem mem_of_mem_dictSet {α : Type} {l : List (String × α)} {k : String} {v : α}
    {p : String × α} (h : p ∈ dictSet l k v) : p = (k, v) ∨ p ∈ l := by
  unfold dictSet at h
  rcases List.mem_append.mp h with h' | h'
  · exact Or.inr (List.mem_of_mem_filter h')
  · simp at h'
    exact Or.inl h'

theorem mem_of_mem_dictPop {α : Type} {l : List (String × α)} {k : String}
    {p : String × α} (h : p ∈ dictPop l k) : p ∈ l :=
  List.mem_of_mem_filter h

theorem dlookup_mem {α : Type} {l : List (String × α)} {key : String} {v : α}
    (h : dlookup l key = some v) : (key, v) ∈ l := by
  induction l with
  | nil => exact absurd h (by simp [dlookup])
  | cons a rest ih =>
    obtain ⟨k', v'⟩ := a
    rw [dlookup_cons] at h
    by_cases hk : k' = key
    · rw [if_pos hk] at h
      subst hk
      simp at h
      simp [h]
    · rw [if_neg hk] at h
      exact List.mem_cons_of_mem _ (ih h)

theorem nat_round_eq (a d : Nat) (hd : 0 < d) :
    (2 * a + d) / (2 * d) = a / d + (if d ≤ 2 * (a % d) then 1 else 0) := by
  have hdecomp : a = d * (a / d) + a % d := (Nat.div_add_mod a d).symm
  have hrem : a % d < d := Nat.mod_lt _ hd
  have h2d : 0 < 2 * d := by omega
  have hrw : 2 * a + d = (2 * d) * (a / d) + (2 * (a % d) + d) := by
    rw [Nat.mul_assoc]; omega
  rw [hrw, Nat.mul_add_div h2d]
  congr 1
  by_cases hc : d ≤ 2 * (a % d)
  · simp only [hc, if_true]
    exact Nat.div_eq_of_lt_le (by omega) (by omega)
  · simp only [hc, if_false]
    exact Nat.div_eq_of_lt (by omega)

theorem code_round_eq (n : Int) (d : Nat) (hd : 0 < d) :
    (if n < 0 then (-1 : Int) else 1) *
      ((if d ≤ 2 * (n.natAbs % d) then n.natAbs / d + 1 else n.natAbs / d : Nat) : Int)
      = roundHalfAwayFromZero n d := by
  unfold roundHalfAwayFromZero
  rw [nat_round_eq n.natAbs d hd]
  by_cases h : n < 0 <;> simp only [h, if_true, if_false] <;>
    by_cases hc : d ≤ 2 * (n.natAbs % d) <;> simp [hc]

theorem lockedOut_mono {lu : Option Nat} {now now' : Nat}
    (h : lockedOut lu now = false) (hle : now ≤ now') : lockedOut lu now' = false := by
  cases lu with
  | none => rfl
  | some t =>
    simp only [lockedOut, decide_eq_false_iff_not, Nat.not_lt] at h ⊢
    omega

theorem confirm_success_inv
    {st : RegistryState} {now : Nat} {device_id token pin : String} {r g b : Int}
    {ip : Option String} {s : Int} {st' : RegistryState}
    (h : confirm_device st now device_id token pin r g b ip = (.ok s, st')) :
    lockedOut st.lockout_until now = false
    ∧ st' = { st with store :=
        { tokens := dictPop st.store.tokens token
          devices := dictSet st.store.devices device_id
            ⟨device_id, toString s, now, ip⟩ } } := by
  simp only [confirm_device] at h
  split at h
  · exact absurd h (by simp)
  next hlock =>
    have hlock' : lockedOut st.lockout_until now = false :=
      Bool.not_eq_true _ ▸ Bool.of_not_eq_true hlock
    split at h
    · exact absurd h (by simp)
    next trec htok =>
      split at h
      · exact absurd h (by simp)
      next hexp =>
        split at h
        · exact absurd h (by simp)
        next hpin =>
          split at h
          · exact absurd h (by simp)
          next seed hseed =>
            rw [Prod.mk.injEq, Except.ok.injEq] at h
            obtain ⟨hs, hst⟩ := h
            subst hs
            exact ⟨hlock', hst.symm⟩

/-! ## Claim theorems -/

/-- C1: `compute_pairing_seed` at `2026-02-03T10:50:47Z`, `r=7, g=-1, b=3`
returns exactly `10574722103`; and for every input with nonzero delta sum the
result is `ok` of the exact round-half-away-from-zero of `numer / d` — a pure
deterministic function of the timestamp and deltas in exact integer
arithmetic, with the truncating-division-plus-correction of the code agreeing
with the mathematical rounding rule. -/
theorem compute_seed_deterministic_rounding :
    compute_pairing_seed ⟨2026, 2, 3, 10, 50, 47⟩ 7 (-1) 3 = .ok 10574722103
    ∧ ∀ (dt : DateTime) (r g b : Int), seedDenom r g b ≠ 0 →
        compute_pairing_seed dt r g b =
          .ok (roundHalfAwayFromZero (seedNumer dt r g b) (seedDenom r g b)) := by
  refine ⟨rfl, ?_⟩
  intro dt r g b hd
  have hd' : 0 < seedDenom r g b := Nat.pos_of_ne_zero hd
  have key := code_round_eq (seedNumer dt r g b) (seedDenom r g b) hd'
  simp only [seedNumer, seedDenom] at key hd ⊢
  simp only [compute_pairing_seed]
  rw [if_neg hd, Except.ok.injEq]
  exact key

/-- Witness for C1: the general rounding characterization applied at the
documented concrete input. -/
theorem compute_seed_deterministic_rounding_witness :
    compute_pairing_seed ⟨2026, 2, 3, 10, 50, 47⟩ 7 (-1) 3 =
      .ok (roundHalfAwayFromZero (seedNumer ⟨2026, 2, 3, 10, 50, 47⟩ 7 (-1) 3)
        (seedDenom 7 (-1) 3)) :=
  compute_seed_deterministic_rounding.2 ⟨2026, 2, 3, 10, 50, 47⟩ 7 (-1) 3 (by decide)

/-- C6: a zero delta sum makes the seed computation fail with `InvalidDelta`
for every timestamp — also through `confirm_device` once all earlier checks
pass — and a nonzero delta sum never produces an error. -/
theorem seed_invalid_delta_cases :
    ∀ (dt : DateTime) (r g b : Int),
      (seedDenom r g b = 0 → compute_pairing_seed dt r g b = .error .invalidDelta)
      ∧ (seedDenom r g b ≠ 0 → ∃ v, compute_pairing_seed dt r g b = .ok v)
      ∧ ∀ (st : RegistryState) (now : Nat) (device_id token pin : String)
          (ip : Option String) (trec : TokenRecord),
          lockedOut st.lockout_until now = false →
          dlookup st.store.tokens token = some trec →
          ¬ trec.expires_at ≤ now →
          strip pin = strip trec.pin →
          seedDenom r g b = 0 →
          (confirm_device st now device_id token pin r g b ip).1 =
            .error .invalidDelta := by
  intro dt r g b
  refine ⟨?_, ?_, ?_⟩
  · intro h
    simp only [seedDenom] at h
    simp only [compute_pairing_seed]
    rw [if_pos h]
  · intro h
    simp only [seedDenom] at h
    simp only [compute_pairing_seed]
    rw [if_neg h]
    exact ⟨_, rfl⟩
  · intro st now device_id token pin ip trec hlock htok hexp hpin hz
    simp only [seedDenom] at hz
    have hseed : compute_pairing_seed trec.issued_at r g b = .error .invalidDelta := by
      simp only [compute_pairing_seed]
      rw [if_pos hz]
    simp only [confirm_device, hlock, Bool.false_eq_true, if_false, htok]
    rw [if_neg hexp, if_neg (fun hc => hc hpin), hseed]

/-- Witness for C6 on concrete inputs: zero deltas fail (directly and through
`confirm_device`), the documented nonzero deltas succeed. -/
theorem seed_invalid_delta_cases_witness :
    compute_pairing_seed ⟨2026, 2, 3, 10, 50, 47⟩ 0 0 0 = .error .invalidDelta
    ∧ (∃ v, compute_pairing_seed ⟨2026, 2, 3, 10, 50, 47⟩ 7 (-1) 3 = .ok v)
    ∧ (confirm_device
        ⟨⟨[("tok", ⟨⟨2026, 2, 3, 10, 50, 47⟩, 1000, "1234"⟩)], []⟩, none⟩
        0 "dev" "tok" "1234" 0 0 0 none).1 = .error .invalidDelta :=
  ⟨(seed_invalid_delta_cases ⟨2026, 2, 3, 10, 50, 47⟩ 0 0 0).1 (by decide),
   (seed_invalid_delta_cases ⟨2026, 2, 3, 10, 50, 47⟩ 7 (-1) 3).2.1 (by decide),
   (seed_invalid_delta_cases ⟨2026, 2, 3, 10, 50, 47⟩ 0 0 0).2.2
     ⟨⟨[("tok", ⟨⟨2026, 2, 3, 10, 50, 47⟩, 1000, "1234"⟩)], []⟩, none⟩
     0 "dev" "tok" "1234" none ⟨⟨2026, 2, 3, 10, 50, 47⟩, 1000, "1234"⟩
     rfl (by decide) (by decide) rfl (by decide)⟩

/-- C3: a trimmed-PIN mismatch on any token passing the earlier checks fails
with `InvalidPin` and arms `lockout_until = now + 600` seconds (10 minutes);
and while `now < lockout_until`, every `confirm_device` call fails with
`PairingLocked` with unchanged state, whatever token or PIN is supplied — so
a correct-PIN confirmation can never succeed during a lockout. -/
theorem pin_mismatch_arms_global_lockout :
    (∀ (st : RegistryState) (now : Nat) (device_id token pin : String)
       (r g b : Int) (ip : Option String) (trec : TokenRecord),
       lockedOut st.lockout_until now = false →
       dlookup st.store.tokens token = some trec →
       ¬ trec.expires_at ≤ now →
       strip pin ≠ strip trec.pin →
       confirm_device st now device_id token pin r g b ip =
         (.error .invalidPin, { st with lockout_until := some (now + 600) }))
    ∧ ∀ (st : RegistryState) (now L : Nat) (device_id token pin : String)
        (r g b : Int) (ip : Option String),
        st.lockout_until = some L → now < L →
        confirm_device st now device_id token pin r g b ip =
          (.error .pairingLocked, st) := by
  constructor
  · intro st now device_id token pin r g b ip trec hlock htok hexp hpin
    simp only [confirm_device, hlock, Bool.false_eq_true, if_false, htok]
    rw [if_neg hexp, if_pos hpin]
  · intro st now L device_id token pin r g b ip hL hnow
    have hlock : lockedOut st.lockout_until now = true := by
      rw [hL]
      simpa [lockedOut]
    simp only [confirm_device, hlock, if_true]

/-- Witness for C3: a wrong PIN on a live token arms the 600-second lockout,
and a later call during the lockout with the correct PIN fails locked. -/
theorem pin_mismatch_arms_global_lockout_witness :
    confirm_device
        ⟨⟨[("tok", ⟨⟨2026, 2, 3, 10, 50, 47⟩, 1000, "1234"⟩)], []⟩, none⟩
        0 "dev" "tok" "0000" 7 (-1) 3 none =
      (.error .invalidPin,
        ⟨⟨[("tok", ⟨⟨2026, 2, 3, 10, 50, 47⟩, 1000, "1234"⟩)], []⟩, some 600⟩)
    ∧ confirm_device
        ⟨⟨[("tok", ⟨⟨2026, 2, 3, 10, 50, 47⟩, 1000, "1234"⟩)], []⟩, some 600⟩
        10 "dev" "tok" "1234" 7 (-1) 3 none =
      (.error .pairingLocked,
        ⟨⟨[("tok", ⟨⟨2026, 2, 3, 10, 50, 47⟩, 1000, "1234"⟩)], []⟩, some 600⟩) :=
  ⟨pin_mismatch_arms_global_lockout.1
      ⟨⟨[("tok", ⟨⟨2026, 2, 3, 10, 50, 47⟩, 1000, "1234"⟩)], []⟩, none⟩
      0 "dev" "tok" "0000" 7 (-1) 3 none ⟨⟨2026, 2, 3, 10, 50, 47⟩, 1000, "1234"⟩
      rfl rfl (by decide) (by decide),
   pin_mismatch_arms_global_lockout.2
      ⟨⟨[("tok", ⟨⟨2026, 2, 3, 10, 50, 47⟩, 1000, "1234"⟩)], []⟩, some 600⟩
      10 600 "dev" "tok" "1234" 7 (-1) 3 none rfl (by decide)⟩

/-- C4: a successful `confirm_device` removes the token from the pending set,
and any subsequent `confirm_device` with the same token (at any `now' ≥ now`)
fails with `InvalidToken`. -/
theorem token_consumed_once :
    ∀ (st : RegistryState) (now : Nat) (device_id token pin : String) (r g b : Int)
      (ip : Option String) (s : Int) (st' : RegistryState),
      confirm_device st now device_id token pin r g b ip = (.ok s, st') →
      dlookup st'.store.tokens token = none
      ∧ ∀ (now' : Nat) (device_id' pin' : String) (r' g' b' : Int)
          (ip' : Option String), now ≤ now' →
          (confirm_device st' now' device_id' token pin' r' g' b' ip').1 =
            .error .invalidToken := by
  intro st now device_id token pin r g b ip s st' h
  obtain ⟨hlock, hst⟩ := confirm_success_inv h
  subst hst
  refine ⟨dlookup_dictPop_self _ _, ?_⟩
  intro now' device_id' pin' r' g' b' ip' hle
  have hlock' := lockedOut_mono hlock hle
  simp only [confirm_device, hlock', Bool.false_eq_true, if_false,
    dlookup_dictPop_self]

/-- Witness for C4: confirming the only pending token succeeds, after which
the token is absent and a retry with it fails `InvalidToken`. -/
theorem token_consumed_once_witness :
    dlookup (⟨⟨[], [("dev", ⟨"dev", "10574722103", 0, none⟩)]⟩, none⟩ :
        RegistryState).store.tokens "tok" = none
    ∧ (confirm_device ⟨⟨[], [("dev", ⟨"dev", "10574722103", 0, none⟩)]⟩, none⟩
        5 "dev2" "tok" "9999" 1 2 3 none).1 = .error .invalidToken := by
  have h := token_consumed_once
    ⟨⟨[("tok", ⟨⟨2026, 2, 3, 10, 50, 47⟩, 1000, "1234"⟩)], []⟩, none⟩
    0 "dev" "tok" "1234" 7 (-1) 3 none 10574722103
    ⟨⟨[], [("dev", ⟨"dev", "10574722103", 0, none⟩)]⟩, none⟩ (by rfl)
  exact ⟨h.1, h.2 5 "dev2" "9999" 1 2 3 none (by decide)⟩

/-- C9: `validate_device` is true exactly when a record exists whose stored
seed string equals the credential; and after a successful `confirm_device`
overwrites the device record, the only accepted credential for that device is
the string form of the newly returned seed. -/
theorem validate_device_exact_seed :
    (∀ (st : RegistryState) (device_id credential : String),
       validate_device st device_id credential = true ↔
         ∃ drec, dlookup st.store.devices device_id = some drec ∧
           drec.seed = credential)
    ∧ ∀ (st : RegistryState) (now : Nat) (device_id token pin : String)
        (r g b : Int) (ip : Option String) (s : Int) (st' : RegistryState),
        confirm_device st now device_id token pin r g b ip = (.ok s, st') →
        ∀ credential, validate_device st' device_id credential = true ↔
          credential = toString s := by
  constructor
  · intro st device_id credential
    unfold validate_device
    cases hfind : dlookup st.store.devices device_id with
    | some drec => simp [hfind, beq_iff_eq]
    | none => simp [hfind]
  · intro st now device_id token pin r g b ip s st' h credential
    obtain ⟨-, hst⟩ := confirm_success_inv h
    subst hst
    unfold validate_device
    simp only [dlookup_dictSet_self]
    rw [beq_iff_eq]
    exact ⟨fun hc => hc.symm, fun hc => hc.symm⟩

/-- Witness for C9: the stored seed string validates, a different string does
not, and after the concrete successful confirmation only the new seed string
validates. -/
theorem validate_device_exact_seed_witness :
    (validate_device ⟨⟨[], [("dev", ⟨"dev", "10574722103", 0, none⟩)]⟩, none⟩
        "dev" "10574722103" = true ↔
      ∃ drec, dlookup [("dev", (⟨"dev", "10574722103", 0, none⟩ : DeviceEntry))]
          "dev" = some drec ∧ drec.seed = "10574722103")
    ∧ (validate_device ⟨⟨[], [("dev", ⟨"dev", "10574722103", 0, none⟩)]⟩, none⟩
        "dev" "999" = true ↔ "999" = toString (10574722103 : Int)) :=
  ⟨(validate_device_exact_seed.1
      ⟨⟨[], [("dev", ⟨"dev", "10574722103", 0, none⟩)]⟩, none⟩ "dev" "10574722103"),
   (validate_device_exact_seed.2
      ⟨⟨[("tok", ⟨⟨2026, 2, 3, 10, 50, 47⟩, 1000, "1234"⟩)], []⟩, none⟩
      0 "dev" "tok" "1234" 7 (-1) 3 none 10574722103
      ⟨⟨[], [("dev", ⟨"dev", "10574722103", 0, none⟩)]⟩, none⟩ (by rfl) "999")⟩

/-- C10: every failing `confirm_device` leaves the persisted document
untouched — the whole store is unchanged and the targeted token's binding in
the pending set is exactly what it was. -/
theorem failing_confirm_preserves_store :
    ∀ (st : RegistryState) (now : Nat) (device_id token pin : String) (r g b : Int)
      (ip : Option String) (e : PairError),
      (confirm_device st now device_id token pin r g b ip).1 = .error e →
      (confirm_device st now device_id token pin r g b ip).2.store = st.store
      ∧ dlookup (confirm_device st now device_id token pin r g b ip).2.store.tokens
          token = dlookup st.store.tokens token := by
  intro st now device_id token pin r g b ip e h
  suffices hs :
      (confirm_device st now device_id token pin r g b ip).2.store = st.store by
    exact ⟨hs, by rw [hs]⟩
  cases hlock : lockedOut st.lockout_until now with
  | true => simp only [confirm_device, hlock, if_true]
  | false =>
    cases htok : dlookup st.store.tokens token with
    | none => simp only [confirm_device, hlock, Bool.false_eq_true, if_false, htok]
    | some trec =>
      by_cases hexp : trec.expires_at ≤ now
      · simp only [confirm_device, hlock, Bool.false_eq_true, if_false, htok]
        rw [if_pos hexp]
      · by_cases hpin : strip pin ≠ strip trec.pin
        · simp only [confirm_device, hlock, Bool.false_eq_true, if_false, htok]
          rw [if_neg hexp, if_pos hpin]
        · cases hseed : compute_pairing_seed trec.issued_at r g b with
          | error e' =>
            simp only [confirm_device, hlock, Bool.false_eq_true, if_false, htok]
            rw [if_neg hexp, if_neg hpin, hseed]
          | ok seed =>
            exfalso
            simp only [confirm_device, hlock, Bool.false_eq_true, if_false, htok] at h
            rw [if_neg hexp, if_neg hpin, hseed] at h
            exact Except.noConfusion h

/-- Witness for C10 at a concrete wrong-PIN failure: the store (and the
token's binding) is unchanged even though the lockout was armed. -/
theorem failing_confirm_preserves_store_witness :
    (confirm_device ⟨⟨[("tok", ⟨⟨2026, 2, 3, 10, 50, 47⟩, 1000, "1234"⟩)], []⟩, none⟩
        0 "dev" "tok" "0000" 7 (-1) 3 none).2.store =
      (⟨⟨[("tok", ⟨⟨2026, 2, 3, 10, 50, 47⟩, 1000, "1234"⟩)], []⟩, none⟩ :
        RegistryState).store
    ∧ dlookup (confirm_device
        ⟨⟨[("tok", ⟨⟨2026, 2, 3, 10, 50, 47⟩, 1000, "1234"⟩)], []⟩, none⟩
        0 "dev" "tok" "0000" 7 (-1) 3 none).2.store.tokens "tok" =
      dlookup (⟨⟨[("tok", ⟨⟨2026, 2, 3, 10, 50, 47⟩, 1000, "1234"⟩)], []⟩, none⟩ :
        RegistryState).store.tokens "tok" :=
  failing_confirm_preserves_store
    ⟨⟨[("tok", ⟨⟨2026, 2, 3, 10, 50, 47⟩, 1000, "1234"⟩)], []⟩, none⟩
    0 "dev" "tok" "0000" 7 (-1) 3 none .invalidPin rfl

/-- C2: broadcasting on a channel delivers to every registered sink via the
drop-oldest policy: a sink at capacity 32 loses exactly its oldest payload
and gains the new one at the back — length unchanged at 32, newest present,
previously-oldest absent (when it occurred only at the front and differs
from the new payload) — while a sink below capacity simply has the payload
appended. -/
theorem broadcast_drop_oldest :
    ∀ (β : Type) (st : RouterState β) (channel : String) (p : β)
      (sinks : List (Nat × List β)) (sid : Nat) (q : List β),
      dlookup st.sources channel = some sinks →
      (sid, q) ∈ sinks →
      ∃ sinks',
        dlookup (AudioRouter.broadcast st channel p).sources channel = some sinks'
        ∧ (sid, sinkPut p q) ∈ sinks'
        ∧ (q.length = 32 → ∀ old rest, q = old :: rest →
            sinkPut p q = rest ++ [p]
            ∧ (sinkPut p q).length = 32
            ∧ p ∈ sinkPut p q
            ∧ (old ∉ rest → old ≠ p → old ∉ sinkPut p q))
        ∧ (q.length < 32 → sinkPut p q = q ++ [p]) := by
  intro β st channel p sinks sid q hch hmem
  refine ⟨sinks.map (fun s => (s.1, sinkPut p s.2)), ?_, ?_, ?_, ?_⟩
  · simp only [AudioRouter.broadcast, hch]
    exact dlookup_dictSet_self _ _ _
  · exact List.mem_map.mpr ⟨(sid, q), hmem, rfl⟩
  · intro hlen old rest hq
    subst hq
    have hfull : 32 ≤ (old :: rest).length := by omega
    have hput : sinkPut p (old :: rest) = rest ++ [p] := by
      unfold sinkPut
      rw [if_pos hfull]
      rfl
    refine ⟨hput, ?_, ?_, ?_⟩
    · have h31 : rest.length = 31 := by
        simp at hlen
        omega
      rw [hput, List.length_append, h31]
      rfl
    · rw [hput]
      simp
    · intro hnr hnp
      rw [hput]
      simp [hnr, hnp]
  · intro hlt
    have : ¬ 32 ≤ q.length := by omega
    simp [sinkPut, this]

/-- Witness for C2: a channel with one full sink (payloads 0..31) broadcast
payload 99 — the queue becomes 1..31,99 of length 32, 99 present, 0 absent. -/
theorem broadcast_drop_oldest_witness :
    ∃ sinks',
      dlookup (AudioRouter.broadcast
          (⟨[("A", [(5, List.range 32)])], 6⟩ : RouterState Nat) "A" 99).sources "A" =
        some sinks'
      ∧ (5, sinkPut 99 (List.range 32)) ∈ sinks'
      ∧ (sinkPut 99 (List.range 32) = List.range' 1 31 ++ [99]
          ∧ (sinkPut 99 (List.range 32)).length = 32
          ∧ 99 ∈ sinkPut 99 (List.range 32)
          ∧ 0 ∉ sinkPut 99 (List.range 32)) := by
  have h := broadcast_drop_oldest Nat ⟨[("A", [(5, List.range 32)])], 6⟩ "A" 99
    [(5, List.range 32)] 5 (List.range 32) (by rfl) (by simp)
  obtain ⟨sinks', h1, h2, h3, -⟩ := h
  have hq : List.range 32 = 0 :: List.range' 1 31 := by decide
  obtain ⟨hput, hlen, hp, hold⟩ := h3 (by decide) 0 (List.range' 1 31) hq
  exact ⟨sinks', h1, h2, hput, hlen, hp, hold (by decide) (by decide)⟩

/-- C8: the router never holds a channel entry with an empty consumer set:
the invariant is preserved by `register`, `unregister` and `broadcast`, and
unregistering the last sink of a channel removes the channel entry
entirely. -/
theorem router_no_empty_channels :
    ∀ (β : Type) (st : RouterState β),
      noEmptyChannels st →
      (∀ channel, noEmptyChannels (AudioRouter.register st channel).2)
      ∧ (∀ channel sid, noEmptyChannels (AudioRouter.unregister st channel sid))
      ∧ (∀ channel p, noEmptyChannels (AudioRouter.broadcast st channel p))
      ∧ (∀ channel sid q, dlookup st.sources channel = some [(sid, q)] →
          dlookup (AudioRouter.unregister st channel sid).sources channel = none) := by
  intro β st hinv
  refine ⟨?_, ?_, ?_, ?_⟩
  · intro channel pr hpr
    simp only [AudioRouter.register] at hpr
    rcases mem_of_mem_dictSet hpr with heq | hmem
    · rw [heq]
      simp
    · exact hinv pr hmem
  · intro channel sid pr hpr
    simp only [AudioRouter.unregister] at hpr
    by_cases hemp :
        (((dlookup st.sources channel).getD []).filter (fun s => s.1 != sid)).isEmpty
    · rw [if_pos hemp] at hpr
      exact hinv pr (mem_of_mem_dictPop hpr)
    · rw [if_neg hemp] at hpr
      rcases mem_of_mem_dictSet hpr with heq | hmem
      · rw [heq]
        simpa [List.isEmpty_iff] using hemp
      · exact hinv pr hmem
  · intro channel p pr hpr
    simp only [AudioRouter.broadcast] at hpr
    cases hch : dlookup st.sources channel with
    | none => rw [hch] at hpr; exact hinv pr hpr
    | some sinks =>
      rw [hch] at hpr
      rcases mem_of_mem_dictSet hpr with heq | hmem
      · rw [heq]
        have hne : sinks ≠ [] := hinv (channel, sinks) (dlookup_mem hch)
        simpa [List.map_eq_nil_iff] using hne
      · exact hinv pr hmem
  · intro channel sid q hch
    simp only [AudioRouter.unregister, hch, Option.getD_some]
    have hfe : ([(sid, q)]).filter (fun s : Nat × List β => s.1 != sid) = [] := by
      simp
    rw [hfe]
    simp only [List.isEmpty_nil, if_true]
    exact dlookup_dictPop_self _ _

/-- Witness for C8 on a concrete one-channel router: the invariant survives a
fresh registration, and unregistering the only sink of channel `A` removes
the channel entry. -/
theorem router_no_empty_channels_witness :
    noEmptyChannels ((AudioRouter.register
        (⟨[("A", [(0, [])])], 1⟩ : RouterState Nat) "B").2)
    ∧ dlookup (AudioRouter.unregister
        (⟨[("A", [(0, [])])], 1⟩ : RouterState Nat) "A" 0).sources "A" = none := by
  have h := router_no_empty_channels Nat ⟨[("A", [(0, [])])], 1⟩
    (by unfold noEmptyChannels; decide)
  exact ⟨h.1 "B", h.2.2.2 "A" 0 [] (by rfl)⟩

theorem digit_table : ∀ k < 10, digitVal (Char.ofNat (48 + k)) = k := by decide

theorem digitVal_digitChar (n : Nat) : digitVal (digitChar n) = n % 10 := by
  have h := digit_table (n % 10) (Nat.mod_lt n (by norm_num))
  unfold digitChar
  exact h

theorem parse_red (y mo d hh mi ss : Nat) :
    parseIso (isoformat ⟨y, mo, d, hh, mi, ss⟩) =
      some ⟨digitVal (digitChar (y / 1000)) * 1000 + digitVal (digitChar (y / 100)) * 100
              + digitVal (digitChar (y / 10)) * 10 + digitVal (digitChar y),
            digitVal (digitChar (mo / 10)) * 10 + digitVal (digitChar mo),
            digitVal (digitChar (d / 10)) * 10 + digitVal (digitChar d),
            digitVal (digitChar (hh / 10)) * 10 + digitVal (digitChar hh),
            digitVal (digitChar (mi / 10)) * 10 + digitVal (digitChar mi),
            digitVal (digitChar (ss / 10)) * 10 + digitVal (digitChar ss)⟩ := rfl

/-- Parsing inverts `isoformat` on any datetime whose fields fit their printed
digit widths. -/
theorem parseIso_isoformat (dt : DateTime) (h : validDT dt) :
    parseIso (isoformat dt) = some dt := by
  obtain ⟨y, mo, d, hh, mi, ss⟩ := dt
  obtain ⟨hy, hmo, hd, hhh, hmi, hss⟩ := h
  have hy' : y < 10000 := hy
  have hmo' : mo < 100 := hmo
  have hd' : d < 100 := hd
  have hhh' : hh < 100 := hhh
  have hmi' : mi < 100 := hmi
  have hss' : ss < 100 := hss
  rw [parse_red]
  simp only [digitVal_digitChar, Option.some.injEq, DateTime.mk.injEq]
  refine ⟨by omega, by omega, by omega, by omega, by omega, by omega⟩

/-- C7: the QR payload's field set is exactly
`{v, type, server, token, issued_at, expires_at}` — so in particular it does
not contain the PIN — and the `token`, `server`, `issued_at` and `expires_at`
fields round-trip through parsing to the source token's exact values. -/
theorem qr_payload_roundtrip :
    ∀ (host : String) (http_port : Nat) (t : PairingToken),
      validDT t.issued_at → validDT t.expires_at →
      (build_qr_payload host http_port t).map Prod.fst =
          ["v", "type", "server", "token", "issued_at", "expires_at"]
      ∧ dlookup (build_qr_payload host http_port t) "pin" = none
      ∧ dlookup (build_qr_payload host http_port t) "token" = some t.token
      ∧ dlookup (build_qr_payload host http_port t) "server" =
          some ("http://" ++ host ++ ":" ++ toString http_port)
      ∧ (dlookup (build_qr_payload host http_port t) "issued_at").bind parseIso =
          some t.issued_at
      ∧ (dlookup (build_qr_payload host http_port t) "expires_at").bind parseIso =
          some t.expires_at := by
  intro host http_port t hiss hexp
  refine ⟨rfl, ?_, ?_, ?_, ?_, ?_⟩
  · simp [build_qr_payload, dlookup_cons, dlookup]
  · simp [build_qr_payload, dlookup_cons, dlookup]
  · simp [build_qr_payload, dlookup_cons, dlookup]
  · simp only [build_qr_payload, dlookup_cons]
    norm_num
    exact parseIso_isoformat _ hiss
  · simp only [build_qr_payload, dlookup_cons]
    norm_num
    exact parseIso_isoformat _ hexp

/-- Witness for C7 at a concrete host, port and token. -/
theorem qr_payload_roundtrip_witness :
    (build_qr_payload "pc.local" 8080
        ⟨"tokval", ⟨2026, 2, 3, 10, 50, 47⟩, ⟨2026, 2, 3, 11, 0, 47⟩, "1234"⟩).map
        Prod.fst = ["v", "type", "server", "token", "issued_at", "expires_at"]
    ∧ dlookup (build_qr_payload "pc.local" 8080
        ⟨"tokval", ⟨2026, 2, 3, 10, 50, 47⟩, ⟨2026, 2, 3, 11, 0, 47⟩, "1234"⟩)
        "pin" = none
    ∧ dlookup (build_qr_payload "pc.local" 8080
        ⟨"tokval", ⟨2026, 2, 3, 10, 50, 47⟩, ⟨2026, 2, 3, 11, 0, 47⟩, "1234"⟩)
        "token" = some "tokval"
    ∧ dlookup (build_qr_payload "pc.local" 8080
        ⟨"tokval", ⟨2026, 2, 3, 10, 50, 47⟩, ⟨2026, 2, 3, 11, 0, 47⟩, "1234"⟩)
        "server" = some ("http://" ++ "pc.local" ++ ":" ++ toString 8080)
    ∧ (dlookup (build_qr_payload "pc.local" 8080
        ⟨"tokval", ⟨2026, 2, 3, 10, 50, 47⟩, ⟨2026, 2, 3, 11, 0, 47⟩, "1234"⟩)
        "issued_at").bind parseIso = some ⟨2026, 2, 3, 10, 50, 47⟩
    ∧ (dlookup (build_qr_payload "pc.local" 8080
        ⟨"tokval", ⟨2026, 2, 3, 10, 50, 47⟩, ⟨2026, 2, 3, 11, 0, 47⟩, "1234"⟩)
        "expires_at").bind parseIso = some ⟨2026, 2, 3, 11, 0, 47⟩ :=
  qr_payload_roundtrip "pc.local" 8080
    ⟨"tokval", ⟨2026, 2, 3, 10, 50, 47⟩, ⟨2026, 2, 3, 11, 0, 47⟩, "1234"⟩
    (by unfold validDT; decide) (by unfold validDT; decide)

theorem notify_all_threadsafe_runs_all (devices : List String)
    (sendOk : String → Bool) :
    notify_all_threadsafe devices sendOk = (devices, none) := by
  induction devices with
  | nil => rfl
  | cons d rest ih => simp [notify_all_threadsafe, ih]

theorem notify_all_ok (devices : List String) (sendOk : String → Bool)
    (h : ∀ x ∈ devices, sendOk x = true) :
    notify_all devices sendOk = (devices, none) := by
  induction devices with
  | nil => rfl
  | cons d rest ih =>
    have hd : sendOk d = true := h d (by simp)
    have hrest := ih (fun x hx => h x (List.mem_cons_of_mem _ hx))
    simp [notify_all, hd, hrest]

theorem notify_all_abort (pre post : List String) (d : String)
    (sendOk : String → Bool) (hpre : ∀ x ∈ pre, sendOk x = true)
    (hd : sendOk d = false) :
    notify_all (pre ++ d :: post) sendOk = (pre ++ [d], some d) := by
  induction pre with
  | nil => simp [notify_all, hd]
  | cons a rest ih =>
    have ha : sendOk a = true := hpre a (by simp)
    have hrest := ih (fun x hx => hpre x (List.mem_cons_of_mem _ hx))
    simp [notify_all, ha, hrest]

/-- C5 counterexample: in `notify_all` a failing send to the first device
aborts the loop — delivery to the second device in the snapshot is never
attempted and the exception reaches the caller — refuting the claim that
both notification paths swallow per-recipient failures. -/
theorem notify_all_failure_not_swallowed :
    notify_all ["a", "b"] (fun d => d != "a") = (["a"], some "a")
    ∧ "b" ∉ (notify_all ["a", "b"] (fun d => d != "a")).1 := by decide

/-- C5 (amended): `notify_all_threadsafe` attempts delivery to every device
of the snapshot whatever the individual send outcomes and never raises to the
notifying thread; `notify_all`, by contrast, delivers in order only until the
first failing send, whose error propagates to the caller with the remaining
devices unattempted (it delivers to all only when every send succeeds). -/
theorem threadsafe_notify_isolates_failures :
    ∀ (devices : List String) (sendOk : String → Bool),
      (notify_all_threadsafe devices sendOk).1 = devices
      ∧ (notify_all_threadsafe devices sendOk).2 = none
      ∧ ((∀ x ∈ devices, sendOk x = true) →
          notify_all devices sendOk = (devices, none))
      ∧ ∀ (pre post : List String) (d : String),
          devices = pre ++ d :: post →
          (∀ x ∈ pre, sendOk x = true) → sendOk d = false →
          notify_all devices sendOk = (pre ++ [d], some d) := by
  intro devices sendOk
  refine ⟨?_, ?_, notify_all_ok devices sendOk, ?_⟩
  · rw [notify_all_threadsafe_runs_all]
  · rw [notify_all_threadsafe_runs_all]
  · intro pre post d hdev hpre hd
    rw [hdev]
    exact notify_all_abort pre post d sendOk hpre hd

/-- Witness for C5 (amended) on a concrete snapshot where the middle send
fails. -/
theorem threadsafe_notify_isolates_failures_witness :
    ((notify_all_threadsafe ["a", "b", "c"] (fun d => d != "b")).1 = ["a", "b", "c"]
      ∧ (notify_all_threadsafe ["a", "b", "c"] (fun d => d != "b")).2 = none)
    ∧ notify_all ["a", "b", "c"] (fun d => d != "b") = (["a", "b"], some "b") := by
  have h := threadsafe_notify_isolates_failures ["a", "b", "c"] (fun d => d != "b")
  exact ⟨⟨h.1, h.2.1⟩, h.2.2.2 ["a"] ["c"] "b" (by decide) (by decide) (by decide)⟩

end HeardDat
